import Mathlib

/-!
Shallow embedding of the `info-agent` repository for specification checking.

The embedded code comes from two files:
  * `src/find-portal/src/fetch_portal.py` — the `IndexCrawler` multi-agent
    crawler (pydantic models, `run_agent`, `get_multi_agent_decision`,
    `validate_page`, `extract_links`, `fetch_content`, `save_results`, `run`);
  * `src/login-portal/src/login_handler.py` — `LoginHandler._try_click_elements`.

External effects (HTTP fetches, the LLM calls, tiktoken encoding, urllib
parsing) are modelled as oracle functions collected in an `Env` structure;
everything the repository's own Python code computes is embedded as
executable Lean definitions.  Python `float` confidence values are modelled
as `ℚ`; Python `int` as `Int`; a Python `set` of strings as a duplicate-free
`List String`; a Python `dict` as an association list with first-match lookup.
-/

/-- `ValidationResult` pydantic model (fetch_portal.py lines 26-30). -/
structure ValidationResult where
  is_valid : Bool
  confidence : ℚ
  reasoning : String
  recommendations : Option (List String)
  deriving Repr, DecidableEq

/-- `AgentState` pydantic model (fetch_portal.py lines 32-40). -/
structure AgentState where
  agent_id : String
  current_url : String
  current_depth : Int
  visited_urls : List String
  validation_result : Option ValidationResult
  parent_url : Option String
  depth_value : Option ℚ
  deriving Repr, DecidableEq

/-- `MultiAgentDecision` pydantic model (fetch_portal.py lines 42-49).
`target_urls` is `Optional[Dict[str, str]]`, modelled as an optional
association list. -/
structure MultiAgentDecision where
  action : String
  target_agent_ids : List String
  target_urls : Option (List (String × String))
  rationale : String
  confidence : ℚ
  winner_agent_id : Option String
  deriving Repr, DecidableEq

/-- `ExtractedLink` pydantic model as produced by the extractor LLM
(fetch_portal.py lines 59-63): `url` is a `str`. -/
structure ExtractedLink where
  url : String
  context : String
  depth_value : ℚ
  parent_url : String
  deriving Repr, DecidableEq

/-- An `ExtractedLink` after `extract_links` reassigns `link.url` to the
result of `normalize_url`, which is `Optional[str]` (it returns `None` for an
empty URL), so the mutated pydantic object's `url` may be `None`. -/
structure NormalizedLink where
  url : Option String
  context : String
  depth_value : ℚ
  parent_url : String
  deriving Repr, DecidableEq

/-- One record of `self.previous_attempts` as appended by `run_agent`
(fetch_portal.py lines 615-623). -/
structure Attempt where
  agent_id : String
  url : String
  parent_url : Option String
  depth : Int
  depth_value : Option ℚ
  content : String
  validation_result : ValidationResult
  deriving Repr, DecidableEq

/-- The mutable state of an `IndexCrawler` instance (fetch_portal.py
lines 350-359, plus the `winner_agent_id` attribute set in `run` and read
back with `getattr(self, 'winner_agent_id', None)`). -/
structure CrawlerState where
  num_agents : Nat
  agents : List (String × AgentState)
  previous_attempts : List Attempt
  max_attempts : Nat
  visited_urls : List String
  current_depth : Int
  max_depth : Int
  exploration_links : List NormalizedLink
  winner_agent_id : Option String
  deriving Repr, DecidableEq

/-- Oracles for everything outside the repository's own code: the network
(`r.jina.ai` GET), tiktoken encode/decode, the three structured-output LLM
calls, and urllib's parsing helpers used by `normalize_url`.  The argument
lists mirror exactly the information the Python code passes to each
external call. -/
structure Env where
  httpGet : String → String
  encode : String → List Nat
  decode : List Nat → String
  rawValidate : String → String → Int → Option String → ValidationResult
  extract : String → List String → String → List ExtractedLink
  llmDecide : List (String × AgentState) → List NormalizedLink → List Attempt →
    MultiAgentDecision
  scheme : String → String
  netloc : String → String
  urljoin : String → String → String

/-- First-match lookup in an association list (models Python `dict` access;
pydantic `Dict[str, str]` keys are unique, so first match is the match). -/
def alookup {α : Type} (m : List (String × α)) (k : String) : Option α :=
  (m.find? (fun p => p.1 == k)).map Prod.snd

/-- Replace the value stored at an existing key (models in-place mutation of
the object obtained from `self.agents[agent_id]`). -/
def aupdate {α : Type} (m : List (String × α)) (k : String) (v : α) :
    List (String × α) :=
  m.map (fun p => if p.1 == k then (k, v) else p)

/-- `set.add` on the crawler's shared `visited_urls` set. -/
def insertSet (s : List String) (x : String) : List String :=
  if s.contains x then s else s ++ [x]

/-- Python membership test `link.url in visited` where `link.url` is an
`Optional[str]`: `None` never equals a string, so `None in set-of-str` is
`False`. -/
def url_in_visited (u : Option String) (visited : List String) : Bool :=
  match u with
  | none => false
  | some s => visited.contains s

/-- `IndexCrawler.__init__` (fetch_portal.py lines 351-359).
`winner_agent_id` is not assigned in `__init__`; `run` reads it with
`getattr(self, 'winner_agent_id', None)`, so the initial value is `none`. -/
def init_state (num_agents : Nat) : CrawlerState :=
  { num_agents := num_agents
    agents := []
    previous_attempts := []
    max_attempts := 15
    visited_urls := []
    current_depth := 0
    max_depth := 3
    exploration_links := []
    winner_agent_id := none }

/-- `IndexCrawler.initialize_agents` (fetch_portal.py lines 361-373). -/
def init_agents (st : CrawlerState) : CrawlerState :=
  { st with agents := (List.range st.num_agents).map (fun i =>
      ("agent_" ++ toString i,
        { agent_id := "agent_" ++ toString i
          current_url := ""
          current_depth := 0
          visited_urls := []
          validation_result := none
          parent_url := none
          depth_value := none })) }

/-- `IndexCrawler.normalize_url` (fetch_portal.py lines 375-408), with
`urlparse(base_url).scheme`/`.netloc` and `urljoin` as oracles.  Returns
`none` exactly when the Python function returns `None` for a falsy url. -/
def normalize_url (env : Env) (base_url url : String) : Option String :=
  if url = "" then none
  else
    let u := url.trim
    if u.startsWith "/" then
      some (env.scheme base_url ++ "://" ++ env.netloc base_url ++ u)
    else if !(u.startsWith "http://" || u.startsWith "https://") then
      some (env.urljoin base_url u)
    else
      some u

/-- Prefix test on character lists (whether the Python substring matcher
would match the pattern at the current position). -/
def isPfxOf : List Char → List Char → Bool
  | [], _ => true
  | _ :: _, [] => false
  | a :: as, b :: bs => a == b && isPfxOf as bs

/-- The pattern of Python's `url.replace('https//', 'https://')` in
`fetch_content` (fetch_portal.py line 425). -/
def https_pat : List Char := ['h', 't', 't', 'p', 's', '/', '/']

/-- The replacement of the same `str.replace` call. -/
def https_repl : List Char := ['h', 't', 't', 'p', 's', ':', '/', '/']

/-- Fuelled left-to-right scan of Python `str.replace('https//', 'https://')`:
at each position, if the pattern matches, emit the replacement and skip the
pattern's length; otherwise keep the character and move on.  Fuel at least
the length of the input fully processes it (each step consumes at least one
character). -/
def py_replace_aux : Nat → List Char → List Char
  | 0, s => s
  | _ + 1, [] => []
  | fuel + 1, c :: rest =>
    if isPfxOf https_pat (c :: rest) then
      https_repl ++ py_replace_aux fuel ((c :: rest).drop https_pat.length)
    else
      c :: py_replace_aux fuel rest

/-- Python `url.replace('https//', 'https://')`. -/
def py_replace_https (s : List Char) : List Char :=
  py_replace_aux s.length s

/-- The `fixed_url` local of `fetch_content` (fetch_portal.py line 425). -/
def fix_url (url : String) : String :=
  ⟨py_replace_https url.data⟩

/-- The `jina_url` local of `fetch_content` (fetch_portal.py line 426): the
URL actually requested is the third-party rendering proxy prefix followed by
the fixed URL. -/
def jina_url (url : String) : String :=
  "https://r.jina.ai/" ++ fix_url url

/-- The `ExponentialRetry` configuration built in `fetch_content`
(fetch_portal.py lines 417-422). -/
structure ExponentialRetryConfig where
  attempts : Nat
  start_timeout : ℚ
  max_timeout : ℚ
  factor : ℚ
  deriving Repr, DecidableEq

/-- The retry options passed to `RetryClient` by `fetch_content`. -/
def fetch_retry_options : ExponentialRetryConfig :=
  { attempts := 3, start_timeout := 1, max_timeout := 30, factor := 2.0 }

/-- `IndexCrawler.fetch_content` (fetch_portal.py lines 410-428): the GET is
issued to `jina_url url`, never to `url` itself, and the response body text
is returned. -/
def fetch_content (env : Env) (url : String) : String :=
  env.httpGet (jina_url url)

/-- The truncation notice string built in `validate_page`
(fetch_portal.py lines 485-487); note the literal `5000` in the text. -/
def truncation_notice (original_tokens : Nat) : String :=
  "\n## NOTE: Content truncated from " ++ toString original_tokens ++
    " to 5000 tokens due to length. This may indicate a comprehensive index page. ##"

/-- The content string `validate_page` actually sends to the validator LLM
(`content + truncation_notice` after the possible truncation,
fetch_portal.py lines 475-494). -/
def validate_prompt_content (env : Env) (content : String) : String :=
  let content_tokens := (env.encode content).length
  if content_tokens > 15000 then
    env.decode ((env.encode content).take 1000) ++ truncation_notice content_tokens
  else
    content ++ ""

/-- `IndexCrawler.validate_page` (fetch_portal.py lines 473-506): truncate
over-long content, call the validator LLM on `content + truncation_notice`,
then bump the confidence of a truncated page from the interval
`[0.8, 0.85]` up to `0.95`. -/
def validate_page (env : Env) (url content : String) (depth : Int)
    (parent_url : Option String) : ValidationResult :=
  let truncated := (env.encode content).length > 15000
  let result := env.rawValidate url (validate_prompt_content env content) depth parent_url
  if truncated ∧ 0.8 ≤ result.confidence ∧ result.confidence ≤ 0.85 then
    { result with
        confidence := 0.95
        reasoning := result.reasoning ++
          "\nNOTE: Confidence adjusted upward due to page length requiring truncation." }
  else
    result

/-- `IndexCrawler.extract_links` (fetch_portal.py lines 450-471): call the
extractor LLM with the current URL, the shared visited list and the content,
then overwrite each link's `url` with its normalized form and its
`parent_url` with the current URL. -/
def extract_links (env : Env) (visited : List String) (url content : String) :
    List NormalizedLink :=
  (env.extract url visited content).map (fun l =>
    { url := normalize_url env url l.url
      context := l.context
      depth_value := l.depth_value
      parent_url := url })

/-- The crawler state at the moment `run_agent` fetches the page: the agent's
`current_url` and `visited_urls` have been updated and the URL has been added
to the shared `visited_urls` set (fetch_portal.py lines 597-600), but nothing
else has happened yet. -/
def run_agent_prefetch (st : CrawlerState) (agent : AgentState)
    (agent_id url : String) : CrawlerState :=
  { st with
      agents := aupdate st.agents agent_id
        { agent with current_url := url
                     visited_urls := agent.visited_urls ++ [url] }
      visited_urls := insertSet st.visited_urls url }

/-- `IndexCrawler.run_agent` (fetch_portal.py lines 593-630), instrumented
with a flag recording whether `extract_links` was invoked.  A missing
`agent_id` raises `KeyError` in Python, modelled as `.error`.  The state
updates happen in source order: agent/visited-set updates first
(`run_agent_prefetch`), then fetch, validate, attempt recording, and the
conditional link extraction filtered against the shared visited set. -/
def run_agent_flag (env : Env) (st : CrawlerState) (agent_id url : String) :
    Except String (CrawlerState × Bool) :=
  match alookup st.agents agent_id with
  | none => .error ("KeyError: " ++ agent_id)
  | some agent =>
    let agent1 : AgentState :=
      { agent with current_url := url, visited_urls := agent.visited_urls ++ [url] }
    let stPre := run_agent_prefetch st agent agent_id url
    let content := fetch_content env url
    let vr := validate_page env url content agent1.current_depth agent1.parent_url
    let agent2 : AgentState := { agent1 with validation_result := some vr }
    let stVal := { stPre with agents := aupdate stPre.agents agent_id agent2 }
    let att : Attempt :=
      { agent_id := agent_id
        url := url
        parent_url := agent2.parent_url
        depth := agent2.current_depth
        depth_value := agent2.depth_value
        content := content
        validation_result := vr }
    let stAtt := { stVal with previous_attempts := stVal.previous_attempts ++ [att] }
    if !vr.is_valid || decide (vr.confidence < 0.8) then
      let newLinks := extract_links env stAtt.visited_urls url content
      let keep := newLinks.filter (fun l => !(url_in_visited l.url stAtt.visited_urls))
      .ok ({ stAtt with exploration_links := stAtt.exploration_links ++ keep }, true)
    else
      .ok (stAtt, false)

/-- `IndexCrawler.run_agent` without the instrumentation flag. -/
def run_agent (env : Env) (st : CrawlerState) (agent_id url : String) :
    Except String CrawlerState :=
  (run_agent_flag env st agent_id url).map Prod.fst

/-- The agent/URL pairs actually dispatched by the main loop
(fetch_portal.py lines 749-752): the ids of `target_agent_ids` that are keys
of `target_urls`, paired with their assigned URL. -/
def dispatch_list (ids : List String) (m : List (String × String)) :
    List (String × String) :=
  ids.filterMap (fun a => (alookup m a).map (fun u => (a, u)))

/-- The dispatch computation of the main loop: with `target_urls = None` and
a non-empty `target_agent_ids`, the Python membership test
`agent_id in decision.target_urls` raises `TypeError`. -/
def dispatch_targets (d : MultiAgentDecision) :
    Except String (List (String × String)) :=
  match d.target_urls with
  | none =>
    if d.target_agent_ids.isEmpty then .ok []
    else .error "TypeError: argument of type NoneType is not iterable"
  | some m => .ok (dispatch_list d.target_agent_ids m)

/-- Sequential execution of the dispatched `run_agent` tasks (the
`asyncio.gather` of fetch_portal.py line 755, modelled in dispatch order). -/
def run_targets (env : Env) : CrawlerState → List (String × String) →
    Except String CrawlerState
  | st, [] => .ok st
  | st, (a, u) :: rest =>
    match run_agent env st a u with
    | .error e => .error e
    | .ok st' => run_targets env st' rest

/-- The unexplored links presented to the orchestrator LLM: `available_links`
filtered against the shared visited set (the `links_str` comprehension of
fetch_portal.py lines 560-564). -/
def unexplored_links (st : CrawlerState) : List NormalizedLink :=
  st.exploration_links.filter (fun l => !(url_in_visited l.url st.visited_urls))

/-- One round body of the main loop after the orchestrator decision `d` is
in hand (fetch_portal.py lines 743-755): on `action == 'terminate'` record
the winner and stop (`true`); otherwise dispatch `run_agent` for the ids in
both `target_agent_ids` and `target_urls` and continue (`false`). -/
def loop_step (env : Env) (st : CrawlerState) (d : MultiAgentDecision) :
    Except String (Bool × CrawlerState) :=
  if d.action = "terminate" then
    .ok (true, { st with winner_agent_id := d.winner_agent_id })
  else
    match dispatch_targets d with
    | .error e => .error e
    | .ok ts =>
      match run_targets env st ts with
      | .error e => .error e
      | .ok st' => .ok (false, st')

/-- The `while len(self.previous_attempts) < self.max_attempts` loop of
`IndexCrawler.run` (fetch_portal.py lines 733-755), fuelled by the number of
rounds, returning both the list of `previous_attempts` lengths observed at
each orchestrator call and the final state.  Each round calls the
orchestrator LLM on the agent states, the unexplored links and the attempt
history — exactly the data `get_multi_agent_decision` formats into its
prompt. -/
def run_loop_aux (env : Env) : Nat → CrawlerState →
    List Nat × Except String CrawlerState
  | 0, st => ([], .ok st)
  | fuel + 1, st =>
    if st.previous_attempts.length < st.max_attempts then
      match loop_step env st
          (env.llmDecide st.agents (unexplored_links st) st.previous_attempts) with
      | .error e => ([st.previous_attempts.length], .error e)
      | .ok (true, st') => ([st.previous_attempts.length], .ok st')
      | .ok (false, st') =>
        let r := run_loop_aux env fuel st'
        (st.previous_attempts.length :: r.1, r.2)
    else
      ([], .ok st)

/-- The main loop's final state. -/
def run_loop (env : Env) (fuel : Nat) (st : CrawlerState) :
    Except String CrawlerState :=
  (run_loop_aux env fuel st).2

/-- The `previous_attempts` lengths at which orchestration rounds started. -/
def run_loop_trace (env : Env) (fuel : Nat) (st : CrawlerState) : List Nat :=
  (run_loop_aux env fuel st).1

/-- The data written to `exploration_results.json` / `.txt` by
`save_results` when it writes at all. -/
structure SavedOutput where
  successful_url : String
  winner_agent_id : String
  total_attempts : Nat
  deriving Repr, DecidableEq

/-- `IndexCrawler.save_results` (fetch_portal.py lines 632-676): return
early (no files) if `previous_attempts` is falsy or `winner_agent_id` is
falsy (`None` or the empty string), or if no recorded attempt has the
winning agent id; otherwise report the FIRST attempt whose `agent_id`
matches the winner (`next(...)` over the list in order). -/
def save_results (winner : Option String) (attempts : List Attempt) :
    Option SavedOutput :=
  if attempts.isEmpty then none
  else
    match winner with
    | none => none
    | some w =>
      if w = "" then none
      else
        match attempts.find? (fun a => a.agent_id == w) with
        | none => none
        | some wa =>
          some { successful_url := wa.url
                 winner_agent_id := w
                 total_attempts := attempts.length }

/-- The hard-coded start URL of `IndexCrawler.run` (fetch_portal.py line 726). -/
def start_url : String := "https://www.alamedasheriff.gov/"

/-- The crawler state as `IndexCrawler.run` enters its main loop
(fetch_portal.py lines 722-731): agents initialized, the start page fetched
through the proxy, and the initial extracted links stored in
`exploration_links`. -/
def run_main_init (env : Env) (num : Nat) : CrawlerState :=
  { init_agents (init_state num) with
      exploration_links := extract_links env
        (init_agents (init_state num)).visited_urls start_url
        (fetch_content env start_url) }

/-- `IndexCrawler.run` (fetch_portal.py lines 717-765): initialize agents,
fetch the start page, extract the initial exploration links, run the main
loop, call `save_results` with the recorded winner, and evaluate the final
`len(previous_attempts) >= max_attempts` warning check (the returned `Bool`
is whether the warning is logged). -/
def run_main (env : Env) (fuel num : Nat) :
    Except String (CrawlerState × Option SavedOutput × Bool) :=
  match run_loop env fuel (run_main_init env num) with
  | .error e => .error e
  | .ok st' =>
    .ok (st', save_results st'.winner_agent_id st'.previous_attempts,
      decide (st'.max_attempts ≤ st'.previous_attempts.length))

/-- The declared action vocabulary of `MultiAgentDecision.action`
(fetch_portal.py line 44): "Global action: 'terminate', 'explore_new',
'explore_deeper'" — the decision object the main loop branches on. -/
def multi_agent_action_vocabulary : List String :=
  ["terminate", "explore_new", "explore_deeper"]

/-- The declared action vocabulary of `OrchestratorDecision.action`
(fetch_portal.py line 69): "'continue', 'retry', or 'terminate'".  This
model is never constructed or consulted by `IndexCrawler.run`. -/
def orchestrator_action_vocabulary : List String :=
  ["continue", "retry", "terminate"]

/-- Selenium locator strategies used by `login_handler.py`. -/
inductive ByStrategy where
  | linkText
  | partialLinkText
  | cssSelector
  | className
  | xpathSel
  deriving Repr, DecidableEq

/-- A `(By.<strategy>, value)` selector pair. -/
structure Selector where
  strategy : ByStrategy
  value : String
  deriving Repr, DecidableEq

/-- The `sign_in_selectors` list of `LoginHandler.attempt_login`
(login_handler.py lines 24-34), in source order. -/
def sign_in_selectors : List Selector :=
  [ { strategy := .linkText, value := "Sign in" }
  , { strategy := .linkText, value := "Sign In" }
  , { strategy := .linkText, value := "Login" }
  , { strategy := .linkText, value := "Log in" }
  , { strategy := .partialLinkText, value := "Sign in" }
  , { strategy := .cssSelector, value := "a[href*='sign']" }
  , { strategy := .cssSelector, value := "button[data-test-id='sign-in']" }
  , { strategy := .className, value := "sign-in-button" }
  , { strategy := .className, value := "login-button" } ]

/-- `LoginHandler._try_click_elements` (login_handler.py lines 100-113),
instrumented with the list of selectors attempted, in order.  The oracle
`clickable s` says whether the 3-second `WebDriverWait` for `s` yields a
clickable element (`false` models `TimeoutException`, the only exception the
loop catches).  The first clickable selector is clicked and the method
returns `True` at once; if every wait times out it returns `False`. -/
def try_click_elements (clickable : Selector → Bool) :
    List Selector → List Selector × Bool
  | [] => ([], false)
  | s :: rest =>
    if clickable s then ([s], true)
    else
      let r := try_click_elements clickable rest
      (s :: r.1, r.2)

lemma isPfxOf_length {p s : List Char} (h : isPfxOf p s = true) :
    p.length ≤ s.length := by
  induction p generalizing s with
  | nil => simp
  | cons a as ih =>
    cases s with
    | nil => simp [isPfxOf] at h
    | cons b bs =>
      simp only [isPfxOf, Bool.and_eq_true] at h
      simpa using ih h.2

lemma py_replace_aux_length : ∀ (fuel : Nat) (s : List Char),
    s.length ≤ (py_replace_aux fuel s).length := by
  intro fuel
  induction fuel with
  | zero => intro s; simp [py_replace_aux]
  | succ n ih =>
    intro s
    cases s with
    | nil => simp [py_replace_aux]
    | cons c rest =>
      simp only [py_replace_aux]
      split
      case isTrue h =>
        have h7 := isPfxOf_length h
        have := ih ((c :: rest).drop https_pat.length)
        simp only [https_pat, https_repl] at *
        simp only [List.length_append, List.length_drop, List.length_cons] at *
        omega
      case isFalse h =>
        have := ih rest
        simp only [List.length_cons]
        omega

lemma jina_url_ne (url : String) : jina_url url ≠ url := by
  intro h
  have hl := congrArg String.length h
  have hfix : url.length ≤ (fix_url url).length := by
    show url.data.length ≤ (py_replace_https url.data).length
    exact py_replace_aux_length _ _
  rw [jina_url, String.length_append] at hl
  have : ("https://r.jina.ai/" : String).length = 18 := rfl
  omega

lemma mem_insertSet_self (s : List String) (x : String) : x ∈ insertSet s x := by
  unfold insertSet
  split
  case isTrue h => exact List.mem_of_elem_eq_true h
  case isFalse h => simp

lemma alookup_isSome_aupdate {α : Type} (m : List (String × α)) (k : String) (v : α)
    (h : (alookup m k).isSome) : alookup (aupdate m k v) k = some v := by
  induction m with
  | nil => simp [alookup] at h
  | cons p rest ih =>
    by_cases hk : p.1 == k
    · simp [alookup, aupdate, List.find?, hk]
    · have h' : (alookup rest k).isSome := by
        simpa [alookup, List.find?, hk] using h
      simpa [alookup, aupdate, List.find?, hk] using ih h'

lemma aupdate_mem {α : Type} {m : List (String × α)} {k : String} {v : α}
    {p : String × α} (h : p ∈ aupdate m k v) : p = (k, v) ∨ p ∈ m := by
  unfold aupdate at h
  rcases List.mem_map.mp h with ⟨q, hq, hfq⟩
  by_cases hk : (q.1 == k) = true
  · rw [if_pos hk] at hfq
    left
    exact hfq.symm
  · rw [if_neg hk] at hfq
    right
    exact hfq ▸ hq

lemma alookup_mem {α : Type} {m : List (String × α)} {k : String} {a : α}
    (h : alookup m k = some a) : ∃ p ∈ m, p.2 = a := by
  unfold alookup at h
  rcases Option.map_eq_some'.mp h with ⟨p, hfind, hsnd⟩
  exact ⟨p, List.mem_of_find?_eq_some hfind, hsnd⟩

lemma run_agent_flag_const {env : Env} {st : CrawlerState} {agent_id url : String}
    {st' : CrawlerState} {b : Bool}
    (h : run_agent_flag env st agent_id url = .ok (st', b)) :
    st'.max_attempts = st.max_attempts ∧ st'.max_depth = st.max_depth ∧
      st'.num_agents = st.num_agents ∧ st'.current_depth = st.current_depth := by
  unfold run_agent_flag at h
  cases halk : alookup st.agents agent_id with
  | none => simp [halk] at h
  | some agent =>
    simp only [halk] at h
    split at h <;>
    · cases h
      exact ⟨rfl, rfl, rfl, rfl⟩

def set_max_depth (st : CrawlerState) (d : Int) : CrawlerState := { st with max_depth := d }

lemma run_agent_flag_mdep (env : Env) (st : CrawlerState) (agent_id url : String) (d : Int) :
    run_agent_flag env (set_max_depth st d) agent_id url =
      (run_agent_flag env st agent_id url).map (fun p => (set_max_depth p.1 d, p.2)) := by
  unfold run_agent_flag
  cases halk : alookup st.agents agent_id with
  | none =>
    have : alookup (set_max_depth st d).agents agent_id = none := halk
    simp [this, halk, Except.map]
  | some agent =>
    have : alookup (set_max_depth st d).agents agent_id = some agent := halk
    simp only [this, halk]
    split
    · rfl
    · rfl

lemma run_targets_const {env : Env} : ∀ {ts : List (String × String)}
    {st st' : CrawlerState}, run_targets env st ts = .ok st' →
    st'.max_attempts = st.max_attempts ∧ st'.max_depth = st.max_depth ∧
      st'.num_agents = st.num_agents ∧ st'.current_depth = st.current_depth := by
  intro ts
  induction ts with
  | nil =>
    intro st st' h
    cases h
    exact ⟨rfl, rfl, rfl, rfl⟩
  | cons p rest ih =>
    intro st st' h
    unfold run_targets at h
    cases hra : run_agent env st p.1 p.2 with
    | error e => rw [hra] at h; cases h
    | ok st1 =>
      rw [hra] at h
      rcases hra' : run_agent_flag env st p.1 p.2 with e | pr
      · rw [run_agent, hra'] at hra; cases hra
      · rw [run_agent, hra'] at hra
        cases hra
        have h1 := run_agent_flag_const hra'
        have h2 := ih h
        exact ⟨h2.1.trans h1.1, h2.2.1.trans h1.2.1, h2.2.2.1.trans h1.2.2.1,
          h2.2.2.2.trans h1.2.2.2⟩

lemma loop_step_const {env : Env} {st : CrawlerState} {d : MultiAgentDecision}
    {b : Bool} {st' : CrawlerState} (h : loop_step env st d = .ok (b, st')) :
    st'.max_attempts = st.max_attempts ∧ st'.max_depth = st.max_depth ∧
      st'.num_agents = st.num_agents ∧ st'.current_depth = st.current_depth := by
  unfold loop_step at h
  split at h
  · cases h
    exact ⟨rfl, rfl, rfl, rfl⟩
  · cases hdt : dispatch_targets d with
    | error e => rw [hdt] at h; cases h
    | ok ts =>
      rw [hdt] at h
      simp only [] at h
      cases hrt : run_targets env st ts with
      | error e => rw [hrt] at h; cases h
      | ok st1 =>
        rw [hrt] at h
        cases h
        exact run_targets_const hrt

lemma run_loop_const {env : Env} : ∀ {fuel : Nat} {st st' : CrawlerState},
    run_loop env fuel st = .ok st' → st'.max_attempts = st.max_attempts := by
  intro fuel
  induction fuel with
  | zero =>
    intro st st' h
    cases h
    rfl
  | succ n ih =>
    intro st st' h
    unfold run_loop run_loop_aux at h
    split at h
    · cases hls : loop_step env st
          (env.llmDecide st.agents (unexplored_links st) st.previous_attempts) with
      | error e => rw [hls] at h; cases h
      | ok pr =>
        rw [hls] at h
        rcases pr with ⟨b, st1⟩
        cases b with
        | true =>
          simp only [] at h
          cases h
          exact (loop_step_const hls).1
        | false =>
          simp only [] at h
          have h2 := ih h
          exact h2.trans (loop_step_const hls).1
    · cases h
      rfl

lemma trace_lt {env : Env} : ∀ {fuel : Nat} {st : CrawlerState},
    ∀ n ∈ run_loop_trace env fuel st, n < st.max_attempts := by
  intro fuel
  induction fuel with
  | zero => intro st n hn; simp [run_loop_trace, run_loop_aux] at hn
  | succ m ih =>
    intro st n hn
    unfold run_loop_trace run_loop_aux at hn
    split at hn
    case isTrue hlt =>
      cases hls : loop_step env st
          (env.llmDecide st.agents (unexplored_links st) st.previous_attempts) with
      | error e =>
        rw [hls] at hn
        simp at hn
        omega
      | ok pr =>
        rw [hls] at hn
        rcases pr with ⟨b, st1⟩
        cases b with
        | true =>
          simp at hn
          omega
        | false =>
          simp only [] at hn
          rcases List.mem_cons.mp hn with h1 | h2
          · omega
          · have := ih n h2
            rw [(loop_step_const hls).1] at this
            exact this
    case isFalse hge => simp at hn

lemma run_targets_mdep (env : Env) : ∀ (ts : List (String × String))
    (st : CrawlerState) (d : Int),
    run_targets env (set_max_depth st d) ts =
      (run_targets env st ts).map (fun s => set_max_depth s d) := by
  intro ts
  induction ts with
  | nil => intro st d; rfl
  | cons p rest ih =>
    intro st d
    unfold run_targets
    rw [show run_agent env (set_max_depth st d) p.1 p.2 =
        (run_agent env st p.1 p.2).map (fun s => set_max_depth s d) by
      unfold run_agent
      rw [run_agent_flag_mdep]
      cases run_agent_flag env st p.1 p.2 <;> rfl]
    cases run_agent env st p.1 p.2 with
    | error e => rfl
    | ok st1 => simp only [Except.map]; exact ih st1 d

lemma loop_step_mdep (env : Env) (st : CrawlerState) (d : MultiAgentDecision) (x : Int) :
    loop_step env (set_max_depth st x) d =
      (loop_step env st d).map (fun p => (p.1, set_max_depth p.2 x)) := by
  unfold loop_step
  split
  · rfl
  · cases dispatch_targets d with
    | error e => rfl
    | ok ts =>
      simp only []
      rw [run_targets_mdep]
      cases run_targets env st ts <;> rfl

lemma run_loop_mdep (env : Env) : ∀ (fuel : Nat) (st : CrawlerState) (x : Int),
    run_loop env fuel (set_max_depth st x) =
      (run_loop env fuel st).map (fun s => set_max_depth s x) := by
  intro fuel
  induction fuel with
  | zero => intro st x; rfl
  | succ n ih =>
    intro st x
    unfold run_loop run_loop_aux
    by_cases hlt : st.previous_attempts.length < st.max_attempts
    · have hlt' : (set_max_depth st x).previous_attempts.length <
          (set_max_depth st x).max_attempts := hlt
      rw [if_pos hlt', if_pos hlt]
      have hdec : env.llmDecide (set_max_depth st x).agents
          (unexplored_links (set_max_depth st x)) (set_max_depth st x).previous_attempts =
          env.llmDecide st.agents (unexplored_links st) st.previous_attempts := rfl
      rw [hdec, loop_step_mdep]
      cases loop_step env st
          (env.llmDecide st.agents (unexplored_links st) st.previous_attempts) with
      | error e => rfl
      | ok pr =>
        rcases pr with ⟨b, st1⟩
        cases b with
        | true => rfl
        | false =>
          simp only [Except.map]
          show (run_loop_aux env n (set_max_depth st1 x)).2 = _
          have := ih st1 x
          unfold run_loop at this
          rw [this]
          cases (run_loop_aux env n st1).2 <;> rfl
    · have hlt' : ¬ ((set_max_depth st x).previous_attempts.length <
          (set_max_depth st x).max_attempts) := hlt
      rw [if_neg hlt', if_neg hlt]
      rfl

/-- Every agent registered in the crawler state has `current_depth = 0`. -/
def AllDepthZero (st : CrawlerState) : Prop :=
  ∀ p ∈ st.agents, (p : String × AgentState).2.current_depth = 0

lemma run_agent_flag_depth0 {env : Env} {st : CrawlerState} {agent_id url : String}
    {st' : CrawlerState} {b : Bool}
    (h : run_agent_flag env st agent_id url = .ok (st', b))
    (hz : AllDepthZero st) : AllDepthZero st' := by
  unfold run_agent_flag at h
  cases halk : alookup st.agents agent_id with
  | none => simp [halk] at h
  | some agent =>
    have hagent0 : agent.current_depth = 0 := by
      obtain ⟨q, hq, hq2⟩ := alookup_mem halk
      rw [← hq2]
      exact hz q hq
    simp only [halk] at h
    split at h <;>
    · cases h
      intro p hp
      simp only [run_agent_prefetch] at hp
      rcases aupdate_mem hp with rfl | hp1
      · exact hagent0
      · rcases aupdate_mem hp1 with rfl | hp2
        · exact hagent0
        · exact hz p hp2

lemma run_targets_depth0 {env : Env} : ∀ {ts : List (String × String)}
    {st st' : CrawlerState}, run_targets env st ts = .ok st' →
    AllDepthZero st → AllDepthZero st' := by
  intro ts
  induction ts with
  | nil =>
    intro st st' h hz
    cases h
    exact hz
  | cons p rest ih =>
    intro st st' h hz
    unfold run_targets at h
    cases hra : run_agent env st p.1 p.2 with
    | error e => rw [hra] at h; cases h
    | ok st1 =>
      rw [hra] at h
      rcases hra' : run_agent_flag env st p.1 p.2 with e | pr
      · rw [run_agent, hra'] at hra; cases hra
      · rw [run_agent, hra'] at hra
        cases hra
        exact ih h (run_agent_flag_depth0 hra' hz)

lemma loop_step_depth0 {env : Env} {st : CrawlerState} {d : MultiAgentDecision}
    {b : Bool} {st' : CrawlerState} (h : loop_step env st d = .ok (b, st'))
    (hz : AllDepthZero st) : AllDepthZero st' := by
  unfold loop_step at h
  split at h
  · cases h
    exact hz
  · cases hdt : dispatch_targets d with
    | error e => rw [hdt] at h; cases h
    | ok ts =>
      rw [hdt] at h
      simp only [] at h
      cases hrt : run_targets env st ts with
      | error e => rw [hrt] at h; cases h
      | ok st1 =>
        rw [hrt] at h
        cases h
        exact run_targets_depth0 hrt hz

lemma run_loop_depth0 {env : Env} : ∀ {fuel : Nat} {st st' : CrawlerState},
    run_loop env fuel st = .ok st' → AllDepthZero st → AllDepthZero st' := by
  intro fuel
  induction fuel with
  | zero =>
    intro st st' h hz
    cases h
    exact hz
  | succ n ih =>
    intro st st' h hz
    unfold run_loop run_loop_aux at h
    split at h
    · cases hls : loop_step env st
          (env.llmDecide st.agents (unexplored_links st) st.previous_attempts) with
      | error e => rw [hls] at h; cases h
      | ok pr =>
        rw [hls] at h
        rcases pr with ⟨b, st1⟩
        cases b with
        | true =>
          simp only [] at h
          cases h
          exact loop_step_depth0 hls hz
        | false =>
          simp only [] at h
          exact ih h (loop_step_depth0 hls hz)
    · cases h
      exact hz

lemma init_agents_depth0 (st : CrawlerState) : AllDepthZero (init_agents st) := by
  intro p hp
  simp only [init_agents] at hp
  rcases List.mem_map.mp hp with ⟨i, _, hfi⟩
  rw [← hfi]

lemma mem_dispatch_list (ids : List String) (m : List (String × String))
    (a u : String) :
    (a, u) ∈ dispatch_list ids m ↔ a ∈ ids ∧ alookup m a = some u := by
  unfold dispatch_list
  rw [List.mem_filterMap]
  constructor
  · rintro ⟨x, hx, hmap⟩
    rcases Option.map_eq_some'.mp hmap with ⟨u', hl, heq⟩
    cases heq
    exact ⟨hx, hl⟩
  · rintro ⟨ha, hl⟩
    exact ⟨a, ha, by rw [hl]; rfl⟩

lemma try_click_snd (clickable : Selector → Bool) : ∀ (sels : List Selector),
    (try_click_elements clickable sels).2 = sels.any clickable := by
  intro sels
  induction sels with
  | nil => rfl
  | cons s rest ih =>
    unfold try_click_elements
    by_cases hc : clickable s
    · simp [hc]
    · simp only [Bool.not_eq_true] at hc
      simp [hc, ih]

lemma try_click_fst (clickable : Selector → Bool) : ∀ (sels : List Selector),
    (try_click_elements clickable sels).1 =
      sels.takeWhile (fun s => !clickable s) ++ (sels.find? clickable).toList := by
  intro sels
  induction sels with
  | nil => rfl
  | cons s rest ih =>
    unfold try_click_elements
    by_cases hc : clickable s
    · simp [List.takeWhile_cons, List.find?_cons, hc]
    · simp only [Bool.not_eq_true] at hc
      simp [List.takeWhile_cons, List.find?_cons, hc, ih]

/-- A fixed validation result used by the concrete test environment. -/
def wit_validation : ValidationResult :=
  { is_valid := false, confidence := 0, reasoning := "", recommendations := none }

/-- A concrete oracle environment used to evaluate the model on closed
inputs. -/
def wit_env : Env :=
  { httpGet := fun _ => "page"
    encode := fun _ => []
    decode := fun _ => ""
    rawValidate := fun _ _ _ _ => wit_validation
    extract := fun _ _ _ => []
    llmDecide := fun _ _ _ =>
      { action := "terminate", target_agent_ids := [], target_urls := none
        rationale := "", confidence := 1, winner_agent_id := some "agent_0" }
    scheme := fun _ => "https"
    netloc := fun _ => "example.org"
    urljoin := fun _ u => u }

/-- A concrete single-agent crawler state. -/
def wit_state : CrawlerState := init_agents (init_state 1)

/-- The initial state of `agent_0` in `wit_state`. -/
def wit_agent0 : AgentState :=
  { agent_id := "agent_0", current_url := "", current_depth := 0
    visited_urls := [], validation_result := none, parent_url := none
    depth_value := none }

/-- A concrete environment whose tokenizer reports 15001 tokens for any
content and whose validator returns confidence 0.82. -/
def wit_env_big : Env :=
  { wit_env with
      encode := fun _ => List.replicate 15001 0
      rawValidate := fun _ _ _ _ =>
        { is_valid := true, confidence := 0.82, reasoning := "", recommendations := none } }

/-- A concrete non-terminate decision with an empty dispatch map. -/
def wit_decision_explore : MultiAgentDecision :=
  { action := "explore_new", target_agent_ids := [], target_urls := some []
    rationale := "", confidence := 1, winner_agent_id := none }

/-- Two concrete recorded attempts by the same agent, earliest first. -/
def wit_attempt1 : Attempt :=
  { agent_id := "agent_0", url := "u1", parent_url := none, depth := 0
    depth_value := none, content := "", validation_result := wit_validation }

/-- The later attempt by the same agent, at a different URL. -/
def wit_attempt2 : Attempt := { wit_attempt1 with url := "u2" }

/-- Claim C6: `IndexCrawler.fetch_content` never requests the given URL
directly: it rewrites any `https//` substring to `https://` and issues the
GET to the third-party rendering proxy URL `https://r.jina.ai/` concatenated
with the fixed URL, with up to 3 retry attempts under exponential backoff
(factor 2), returning the response body text. -/
theorem C6_fetch_via_proxy (env : Env) (url : String) :
    fetch_content env url = env.httpGet (jina_url url)
    ∧ jina_url url = "https://r.jina.ai/" ++ fix_url url
    ∧ jina_url url ≠ url
    ∧ fix_url "https//a.gov/x" = "https://a.gov/x"
    ∧ fix_url "https://a.gov/x" = "https://a.gov/x"
    ∧ fetch_retry_options.attempts = 3
    ∧ fetch_retry_options.factor = 2 :=
  ⟨rfl, rfl, jina_url_ne url, by decide, by decide, rfl, by norm_num [fetch_retry_options]⟩

/-- Claim C7: `LoginHandler._try_click_elements` tries its selectors
strictly in the given order (the attempted selectors are the failing ones up
to and including the first clickable one), returns `True` exactly when some
selector is clickable — clicking the first such and skipping all later
selectors — and returns `False` exactly when every selector times out. -/
theorem C7_try_click_elements (clickable : Selector → Bool)
    (sels : List Selector) :
    (try_click_elements clickable sels).2 = sels.any clickable
    ∧ (try_click_elements clickable sels).1 =
        sels.takeWhile (fun s => !clickable s) ++ (sels.find? clickable).toList
    ∧ ((try_click_elements clickable sels).2 = false ↔
        ∀ s ∈ sels, clickable s = false) := by
  refine ⟨try_click_snd clickable sels, try_click_fst clickable sels, ?_⟩
  rw [try_click_snd clickable sels]
  simp [List.any_eq_true]

/-- Claim C8: in `validate_page`, content over 15000 tokens is truncated to
its first 1000 tokens while the appended notice claims truncation to 5000
tokens, and a truncated page whose LLM confidence lies in `[0.8, 0.85]` has
its confidence overwritten to `0.95`. -/
theorem C8_truncation_mismatch (env : Env) (url content : String) (depth : Int)
    (parent : Option String)
    (hbig : (env.encode content).length > 15000) :
    validate_prompt_content env content =
        env.decode ((env.encode content).take 1000) ++
          truncation_notice (env.encode content).length
    ∧ ((env.encode content).take 1000).length ≤ 1000
    ∧ (∃ pre post : String,
        truncation_notice (env.encode content).length =
          pre ++ " to 5000 tokens due to length." ++ post)
    ∧ (0.8 ≤ (env.rawValidate url (validate_prompt_content env content) depth
          parent).confidence →
       (env.rawValidate url (validate_prompt_content env content) depth
          parent).confidence ≤ 0.85 →
       (validate_page env url content depth parent).confidence = 0.95) := by
  refine ⟨?_, ?_, ?_, ?_⟩
  · rw [validate_prompt_content, if_pos hbig]
  · rw [List.length_take]
    exact min_le_left _ _
  · refine ⟨"\n## NOTE: Content truncated from " ++
        toString (env.encode content).length,
      " This may indicate a comprehensive index page. ##", ?_⟩
    rw [truncation_notice]
    rw [String.append_assoc, String.append_assoc]
    rfl
  · intro h1 h2
    rw [validate_page, if_pos ⟨by simpa using hbig, h1, h2⟩]

/-- Claim C8, witness: in the concrete environment `wit_env_big` (15001
reported tokens, raw confidence 0.82) the returned confidence is 0.95. -/
theorem C8_truncation_mismatch_witness :
    (validate_page wit_env_big "u" "c" 0 none).confidence = 0.95 := by
  have hlen : (wit_env_big.encode "c").length = 15001 := by
    rw [show wit_env_big.encode "c" = List.replicate 15001 0 from rfl,
      List.length_replicate]
  have h := C8_truncation_mismatch wit_env_big "u" "c" 0 none (by rw [hlen]; norm_num)
  refine h.2.2.2 ?_ ?_
  · rw [show wit_env_big.rawValidate "u" (validate_prompt_content wit_env_big "c") 0 none =
        { is_valid := true, confidence := 0.82, reasoning := "",
          recommendations := none } from rfl]
    norm_num
  · rw [show wit_env_big.rawValidate "u" (validate_prompt_content wit_env_big "c") 0 none =
        { is_valid := true, confidence := 0.82, reasoning := "",
          recommendations := none } from rfl]
    norm_num

/-- Claim C10: `save_results` writes nothing when the winner is `None`, when
`previous_attempts` is empty, or when no recorded attempt matches the
winner; when it does write, the reported `successful_url` is the URL of the
FIRST attempt in `previous_attempts` whose `agent_id` matches the winner
(the winning agent's earliest recorded attempt). -/
theorem C10_save_results (winner : Option String) (attempts : List Attempt) :
    ((winner = none ∨ attempts = []) → save_results winner attempts = none)
    ∧ (∀ w, winner = some w →
        attempts.find? (fun a => a.agent_id == w) = none →
        save_results winner attempts = none)
    ∧ (∀ out, save_results winner attempts = some out →
        ∃ w wa, winner = some w
          ∧ attempts.find? (fun a => a.agent_id == w) = some wa
          ∧ out.successful_url = wa.url
          ∧ out.winner_agent_id = w
          ∧ out.total_attempts = attempts.length) := by
  refine ⟨?_, ?_, ?_⟩
  · rintro (rfl | rfl)
    · rcases attempts with _ | _ <;> rfl
    · rfl
  · rintro w rfl hfind
    unfold save_results
    split
    · rfl
    · simp only []
      split
      · rfl
      · rw [hfind]
  · intro out hout
    unfold save_results at hout
    split at hout
    · cases hout
    · cases winner with
      | none => cases hout
      | some w =>
        simp only [] at hout
        split at hout
        · cases hout
        · cases hfind : attempts.find? (fun a => a.agent_id == w) with
          | none => rw [hfind] at hout; cases hout
          | some wa =>
            rw [hfind] at hout
            simp only [] at hout
            cases hout
            exact ⟨w, wa, rfl, hfind, rfl, rfl, rfl⟩

/-- Claim C10, witness: with winner `agent_0` and two recorded attempts by
`agent_0` at `u1` then `u2`, the reported URL is `u1`, the earliest. -/
theorem C10_save_results_witness :
    ∃ w wa, (some "agent_0" : Option String) = some w
      ∧ [wit_attempt1, wit_attempt2].find? (fun a => a.agent_id == w) = some wa
      ∧ (SavedOutput.mk "u1" "agent_0" 2).successful_url = wa.url
      ∧ (SavedOutput.mk "u1" "agent_0" 2).winner_agent_id = w
      ∧ (SavedOutput.mk "u1" "agent_0" 2).total_attempts =
          [wit_attempt1, wit_attempt2].length :=
  (C10_save_results (some "agent_0") [wit_attempt1, wit_attempt2]).2.2
    (SavedOutput.mk "u1" "agent_0" 2) (by decide)

/-- Claim C2, counterexample: the decision object the main loop branches on
(`MultiAgentDecision`) declares the action vocabulary
`'terminate'/'explore_new'/'explore_deeper'`, not
`'terminate'/'continue'/'retry'` — `'continue'` and `'retry'` are not in it —
and the loop's branch does not distinguish `'explore_new'` from
`'continue'`: both take the same non-terminate dispatch path. -/
theorem C2_counterexample :
    ("continue" ∉ multi_agent_action_vocabulary
      ∧ "retry" ∉ multi_agent_action_vocabulary
      ∧ "explore_new" ∈ multi_agent_action_vocabulary
      ∧ "explore_deeper" ∈ multi_agent_action_vocabulary)
    ∧ multi_agent_action_vocabulary ≠ orchestrator_action_vocabulary
    ∧ loop_step wit_env wit_state wit_decision_explore =
        loop_step wit_env wit_state { wit_decision_explore with action := "continue" } :=
  ⟨by decide, by decide, rfl⟩

/-- Claim C2, amended: the main loop's only string-based branch compares the
`MultiAgentDecision.action` against `'terminate'`; every non-`'terminate'`
action value (the declared vocabulary being
`'terminate'/'explore_new'/'explore_deeper'`) takes the same dispatch path,
and `'terminate'` exits recording the winner. -/
theorem C2_main_loop_branch (env : Env) (st : CrawlerState)
    (d : MultiAgentDecision) (a' : String)
    (h1 : d.action ≠ "terminate") (h2 : a' ≠ "terminate") :
    multi_agent_action_vocabulary = ["terminate", "explore_new", "explore_deeper"]
    ∧ loop_step env st { d with action := a' } = loop_step env st d
    ∧ (∀ w, loop_step env st { d with action := "terminate", winner_agent_id := w } =
        .ok (true, { st with winner_agent_id := w })) := by
  refine ⟨rfl, ?_, fun w => ?_⟩
  · unfold loop_step
    rw [if_neg h1, if_neg h2]
    rfl
  · unfold loop_step
    rw [if_pos rfl]

/-- Claim C2, amended, witness at a concrete decision and state. -/
theorem C2_main_loop_branch_witness :
    loop_step wit_env wit_state
        { wit_decision_explore with action := "explore_deeper" } =
      loop_step wit_env wit_state wit_decision_explore :=
  (C2_main_loop_branch wit_env wit_state wit_decision_explore "explore_deeper"
    (by decide) (by decide)).2.1

/-- Claim C1: each orchestration round calls the orchestrator over all agent
states and the unexplored links; on `action = 'terminate'` the loop exits at
once recording the decision's `winner_agent_id`; otherwise `run_agent` is
dispatched for exactly the agent ids appearing both in `target_agent_ids`
and as keys of `target_urls`, each on its assigned URL. -/
theorem C1_run_round (env : Env) (st : CrawlerState) (d : MultiAgentDecision) :
    (d.action = "terminate" →
      loop_step env st d = .ok (true, { st with winner_agent_id := d.winner_agent_id }))
    ∧ (∀ m, d.action ≠ "terminate" → d.target_urls = some m →
        loop_step env st d =
          (match run_targets env st (dispatch_list d.target_agent_ids m) with
            | .error e => .error e
            | .ok st1 => .ok (false, st1))
        ∧ (∀ a u, (a, u) ∈ dispatch_list d.target_agent_ids m ↔
            a ∈ d.target_agent_ids ∧ alookup m a = some u))
    ∧ (∀ fuel, st.previous_attempts.length < st.max_attempts →
        (env.llmDecide st.agents (unexplored_links st) st.previous_attempts).action =
          "terminate" →
        run_loop env (fuel + 1) st =
          .ok { st with winner_agent_id :=
            (env.llmDecide st.agents (unexplored_links st)
              st.previous_attempts).winner_agent_id }) := by
  refine ⟨?_, ?_, ?_⟩
  · intro hterm
    unfold loop_step
    rw [if_pos hterm]
  · intro m hne hurls
    constructor
    · unfold loop_step
      rw [if_neg hne]
      unfold dispatch_targets
      rw [hurls]
    · intro a u
      exact mem_dispatch_list d.target_agent_ids m a u
  · intro fuel hlt hterm
    unfold run_loop run_loop_aux
    rw [if_pos hlt]
    have : loop_step env st
        (env.llmDecide st.agents (unexplored_links st) st.previous_attempts) =
        .ok (true, { st with winner_agent_id :=
          (env.llmDecide st.agents (unexplored_links st)
            st.previous_attempts).winner_agent_id }) := by
      unfold loop_step
      rw [if_pos hterm]
    rw [this]

/-- Claim C1, witness: in the concrete environment, whose orchestrator
always answers `'terminate'` with winner `agent_0`, one round of the loop
stops and records the winner. -/
theorem C1_run_round_witness :
    run_loop wit_env 1 wit_state =
      .ok { wit_state with winner_agent_id := some "agent_0" } :=
  (C1_run_round wit_env wit_state
      (wit_env.llmDecide wit_state.agents (unexplored_links wit_state)
        wit_state.previous_attempts)).2.2 0 (by decide) rfl

/-- Claim C3: the crawler's attempt budget. `max_attempts` is 15 from
construction; every orchestration round starts only while the number of
recorded attempts is strictly below the budget; once the budget is reached
the loop ends immediately, unchanged, with no further round; and in a full
`run`, a final state at or over the budget makes the warning check fire. -/
theorem C3_attempt_budget (env : Env) (fuel num : Nat) (st : CrawlerState) :
    (init_state num).max_attempts = 15
    ∧ (st.max_attempts = 15 → ∀ n ∈ run_loop_trace env fuel st, n < 15)
    ∧ (st.max_attempts = 15 → 15 ≤ st.previous_attempts.length →
        run_loop env fuel st = .ok st ∧ run_loop_trace env fuel st = [])
    ∧ (∀ st1 saved warned, run_main env fuel num = .ok (st1, saved, warned) →
        15 ≤ st1.previous_attempts.length → warned = true) := by
  refine ⟨rfl, ?_, ?_, ?_⟩
  · intro h15 n hn
    have := trace_lt n hn
    omega
  · intro h15 hge
    have hnlt : ¬ st.previous_attempts.length < st.max_attempts := by omega
    cases fuel with
    | zero => exact ⟨rfl, rfl⟩
    | succ k =>
      constructor
      · unfold run_loop run_loop_aux
        rw [if_neg hnlt]
      · unfold run_loop_trace run_loop_aux
        rw [if_neg hnlt]
  · intro st1 saved warned hmain hge
    unfold run_main at hmain
    cases hrl : run_loop env fuel (run_main_init env num) with
    | error e => rw [hrl] at hmain; cases hmain
    | ok st' =>
      rw [hrl] at hmain
      simp only [] at hmain
      cases hmain
      have hmax : st1.max_attempts = 15 := by
        have h1 := run_loop_const hrl
        have h2 : (run_main_init env num).max_attempts = 15 := rfl
        omega
      rw [hmax]
      rw [decide_eq_true_eq]
      omega

/-- Claim C4: whenever `run_agent(agent_id, url)` executes, `url` is
appended to that agent's `visited_urls` list and added to the crawler-wide
visited set in the pre-fetch state (the state at which the page fetch
happens), and every link present after the run is either an old one or has
a URL that was not in the shared visited set at extraction time. -/
theorem C4_shared_visited (env : Env) (st : CrawlerState)
    (agent_id url : String) (agent : AgentState)
    (hagent : alookup st.agents agent_id = some agent) :
    url ∈ (run_agent_prefetch st agent agent_id url).visited_urls
    ∧ (run_agent_prefetch st agent agent_id url).visited_urls =
        insertSet st.visited_urls url
    ∧ alookup (run_agent_prefetch st agent agent_id url).agents agent_id =
        some { agent with current_url := url
                          visited_urls := agent.visited_urls ++ [url] }
    ∧ (∀ st' flag, run_agent_flag env st agent_id url = .ok (st', flag) →
        st'.visited_urls = insertSet st.visited_urls url
        ∧ ∀ l ∈ st'.exploration_links, l ∈ st.exploration_links ∨
            url_in_visited l.url (insertSet st.visited_urls url) = false) := by
  refine ⟨mem_insertSet_self st.visited_urls url, rfl, ?_, ?_⟩
  · exact alookup_isSome_aupdate st.agents agent_id _ (by rw [hagent]; rfl)
  · intro st' flag h
    unfold run_agent_flag at h
    rw [hagent] at h
    simp only [] at h
    split at h
    · cases h
      refine ⟨rfl, ?_⟩
      intro l hl
      rcases List.mem_append.mp hl with hold | hnew
      · exact Or.inl hold
      · right
        have := (List.mem_filter.mp hnew).2
        simpa using this
    · cases h
      exact ⟨rfl, fun l hl => Or.inl hl⟩

/-- Claim C4, witness at the concrete one-agent state. -/
theorem C4_shared_visited_witness :
    "http://u" ∈ (run_agent_prefetch wit_state wit_agent0 "agent_0"
        "http://u").visited_urls
    ∧ (run_agent_prefetch wit_state wit_agent0 "agent_0" "http://u").visited_urls =
        insertSet wit_state.visited_urls "http://u"
    ∧ alookup (run_agent_prefetch wit_state wit_agent0 "agent_0"
          "http://u").agents "agent_0" =
        some { wit_agent0 with current_url := "http://u"
                               visited_urls := wit_agent0.visited_urls ++ ["http://u"] }
    ∧ (∀ st' flag,
        run_agent_flag wit_env wit_state "agent_0" "http://u" = .ok (st', flag) →
        st'.visited_urls = insertSet wit_state.visited_urls "http://u"
        ∧ ∀ l ∈ st'.exploration_links, l ∈ wit_state.exploration_links ∨
            url_in_visited l.url (insertSet wit_state.visited_urls "http://u") = false) :=
  C4_shared_visited wit_env wit_state "agent_0" "http://u" wit_agent0 (by decide)

/-- Claim C5: after validating a page, `run_agent` extracts further links if
and only if the stored validation result has `is_valid` false or confidence
strictly below 0.8; when it does not extract, `exploration_links` is
unchanged, and when it does, the new links are the extracted ones not
already in the shared visited set. -/
theorem C5_extraction_gate (env : Env) (st : CrawlerState)
    (agent_id url : String) (st' : CrawlerState) (flag : Bool)
    (agent' : AgentState)
    (hrun : run_agent_flag env st agent_id url = .ok (st', flag))
    (hagent : alookup st'.agents agent_id = some agent') :
    ∃ vr, agent'.validation_result = some vr
      ∧ (flag = true ↔ (vr.is_valid = false ∨ vr.confidence < 0.8))
      ∧ (flag = false → st'.exploration_links = st.exploration_links)
      ∧ (flag = true → st'.exploration_links =
          st.exploration_links ++
            (extract_links env (insertSet st.visited_urls url) url
                (fetch_content env url)).filter
              (fun l => !(url_in_visited l.url (insertSet st.visited_urls url)))) := by
  unfold run_agent_flag at hrun
  cases halk : alookup st.agents agent_id with
  | none => rw [halk] at hrun; cases hrun
  | some agent =>
    rw [halk] at hrun
    simp only [] at hrun
    split at hrun
    case isTrue hcond =>
      cases hrun
      refine ⟨validate_page env url (fetch_content env url)
          agent.current_depth agent.parent_url, ?_, ?_, ?_, ?_⟩
      · rw [show alookup
            ({ run_agent_prefetch st agent agent_id url with
                agents := aupdate (run_agent_prefetch st agent agent_id url).agents
                  agent_id _ } : CrawlerState).agents agent_id =
            alookup (aupdate (run_agent_prefetch st agent agent_id url).agents
              agent_id _) agent_id from rfl] at hagent
        rw [alookup_isSome_aupdate _ _ _ (by
          rw [show alookup (run_agent_prefetch st agent agent_id url).agents agent_id =
              alookup (aupdate st.agents agent_id _) agent_id from rfl,
            alookup_isSome_aupdate st.agents agent_id _ (by rw [halk]; rfl)]
          rfl)] at hagent
        cases hagent
        rfl
      · constructor
        · intro _
          rcases Bool.or_eq_true _ _ |>.mp hcond with hno | hlow
          · left
            simpa using hno
          · right
            simpa using hlow
        · intro _
          rfl
      · intro hfl
        cases hfl
      · intro _
        rfl
    case isFalse hcond =>
      cases hrun
      refine ⟨validate_page env url (fetch_content env url)
          agent.current_depth agent.parent_url, ?_, ?_, ?_, ?_⟩
      · rw [show alookup
            ({ run_agent_prefetch st agent agent_id url with
                agents := aupdate (run_agent_prefetch st agent agent_id url).agents
                  agent_id _ } : CrawlerState).agents agent_id =
            alookup (aupdate (run_agent_prefetch st agent agent_id url).agents
              agent_id _) agent_id from rfl] at hagent
        rw [alookup_isSome_aupdate _ _ _ (by
          rw [show alookup (run_agent_prefetch st agent agent_id url).agents agent_id =
              alookup (aupdate st.agents agent_id _) agent_id from rfl,
            alookup_isSome_aupdate st.agents agent_id _ (by rw [halk]; rfl)]
          rfl)] at hagent
        cases hagent
        rfl
      · constructor
        · intro hfl
          cases hfl
        · intro hv
          exfalso
          apply hcond
          rcases hv with hno | hlow
          · exact Bool.or_eq_true _ _ |>.mpr (Or.inl (by simpa using hno))
          · exact Bool.or_eq_true _ _ |>.mpr (Or.inr (by simpa using hlow))
      · intro _
        rfl
      · intro hfl
        cases hfl

/-- A concrete crawler state that has already used up the attempt budget. -/
def wit_state_full : CrawlerState :=
  { wit_state with previous_attempts := List.replicate 15 wit_attempt1 }

/-- Claim C3, witness: with 15 recorded attempts the loop exits at once,
unchanged, performing no orchestration round. -/
theorem C3_attempt_budget_witness :
    run_loop wit_env 5 wit_state_full = .ok wit_state_full
    ∧ run_loop_trace wit_env 5 wit_state_full = [] :=
  (C3_attempt_budget wit_env 5 1 wit_state_full).2.2.1 (by decide) (by decide)

/-- The state of `agent_0` after `run_agent` explored `http://u` in the
concrete environment. -/
def wit_agent_after : AgentState :=
  { agent_id := "agent_0", current_url := "http://u", current_depth := 0
    visited_urls := ["http://u"], validation_result := some wit_validation
    parent_url := none, depth_value := none }

/-- The attempt recorded by that concrete `run_agent` execution. -/
def wit_attempt_u : Attempt :=
  { agent_id := "agent_0", url := "http://u", parent_url := none, depth := 0
    depth_value := none, content := "page", validation_result := wit_validation }

/-- The full crawler state after that concrete `run_agent` execution. -/
def wit_state_after : CrawlerState :=
  { num_agents := 1, agents := [("agent_0", wit_agent_after)]
    previous_attempts := [wit_attempt_u], max_attempts := 15
    visited_urls := ["http://u"], current_depth := 0, max_depth := 3
    exploration_links := [], winner_agent_id := none }

/-- Claim C5, witness: in the concrete run (invalid validation, confidence
0) extraction is performed, and the appended links are the extracted ones
not in the shared visited set. -/
theorem C5_extraction_gate_witness :
    ∃ vr, wit_agent_after.validation_result = some vr
      ∧ (true = true ↔ (vr.is_valid = false ∨ vr.confidence < 0.8))
      ∧ (true = false → wit_state_after.exploration_links = wit_state.exploration_links)
      ∧ (true = true → wit_state_after.exploration_links =
          wit_state.exploration_links ++
            (extract_links wit_env (insertSet wit_state.visited_urls "http://u")
                "http://u" (fetch_content wit_env "http://u")).filter
              (fun l => !(url_in_visited l.url
                (insertSet wit_state.visited_urls "http://u")))) :=
  C5_extraction_gate wit_env wit_state "agent_0" "http://u" wit_state_after true
    wit_agent_after rfl (by decide)

/-- Claim C9: agents are created with `current_depth = 0` and no code path
ever changes any agent's depth (`AllDepthZero` is preserved by the whole
loop and holds at the end of any full `run`), and the configured
`max_depth = 3` is never consulted: changing it commutes with the whole
loop, affecting nothing but the stored field itself. -/
theorem C9_depth_never_used (env : Env) (fuel num : Nat) (st st' : CrawlerState)
    (d : Int) :
    (init_state num).max_depth = 3
    ∧ AllDepthZero (init_agents (init_state num))
    ∧ (AllDepthZero st → run_loop env fuel st = .ok st' → AllDepthZero st')
    ∧ run_loop env fuel (set_max_depth st d) =
        (run_loop env fuel st).map (fun s => set_max_depth s d)
    ∧ (∀ s1 saved warned, run_main env fuel num = .ok (s1, saved, warned) →
        AllDepthZero s1) := by
  refine ⟨rfl, init_agents_depth0 _, fun hz h => run_loop_depth0 h hz,
    run_loop_mdep env fuel st d, ?_⟩
  intro s1 saved warned hmain
  unfold run_main at hmain
  cases hrl : run_loop env fuel (run_main_init env num) with
  | error e => rw [hrl] at hmain; cases hmain
  | ok stq =>
    rw [hrl] at hmain
    simp only [] at hmain
    cases hmain
    apply run_loop_depth0 hrl
    intro p hp
    exact init_agents_depth0 (init_state num) p hp

/-- Claim C9, witness: the concrete single-agent run preserves depth 0. -/
theorem C9_depth_never_used_witness :
    AllDepthZero { wit_state with winner_agent_id := some "agent_0" } :=
  (C9_depth_never_used wit_env 1 1 wit_state
      { wit_state with winner_agent_id := some "agent_0" } 0).2.2.1
    (by unfold AllDepthZero; decide) rfl

/-- Claim C6, witness at a concrete URL in the concrete environment. -/
theorem C6_fetch_via_proxy_witness :
    fetch_content wit_env "https//x.gov" = wit_env.httpGet (jina_url "https//x.gov")
    ∧ jina_url "https//x.gov" = "https://r.jina.ai/" ++ fix_url "https//x.gov"
    ∧ jina_url "https//x.gov" ≠ "https//x.gov"
    ∧ fix_url "https//a.gov/x" = "https://a.gov/x"
    ∧ fix_url "https://a.gov/x" = "https://a.gov/x"
    ∧ fetch_retry_options.attempts = 3
    ∧ fetch_retry_options.factor = 2 :=
  C6_fetch_via_proxy wit_env "https//x.gov"

/-- Claim C7, witness: with only the `Login` link text clickable, the first
two selectors are attempted and fail, the third is clicked, and the call
reports success. -/
theorem C7_try_click_elements_witness :
    (try_click_elements (fun s => s.value == "Login") sign_in_selectors).2 =
        sign_in_selectors.any (fun s => s.value == "Login")
    ∧ (try_click_elements (fun s => s.value == "Login") sign_in_selectors).1 =
        sign_in_selectors.takeWhile (fun s => !(s.value == "Login")) ++
          (sign_in_selectors.find? (fun s => s.value == "Login")).toList
    ∧ ((try_click_elements (fun s => s.value == "Login") sign_in_selectors).2 = false ↔
        ∀ s ∈ sign_in_selectors, (s.value == "Login") = false) :=
  C7_try_click_elements (fun s => s.value == "Login") sign_in_selectors
